import Mathlib

/-!
Shallow embedding of the orchestration core of the multi-agent game tester
(`app/models/test_case.py`, `app/agents/executor.py`, `app/agents/ranker.py`,
`app/agents/planner.py`, `app/agents/orchestrator.py`,
`app/services/browser_service.py`).  Python dictionaries holding execution
results are modelled as a record type; optional dictionary keys are `Option`
fields; Python `float` scores and rates are modelled as exact rationals;
Python exceptions are modelled with `Except String`, the `String` being the
exception text `str(e)`.  Python string primitives used by the agents
(`strip`, `split`, `replace`, `startswith`, zero-padded formatting) are given
executable structural definitions below so that every model evaluates inside
the kernel.
-/

/-- Characters Python `str.strip()` removes (whitespace). -/
def pyIsSpace (c : Char) : Bool :=
  c == ' ' || c == '\t' || c == '\n' || c == '\r' || c == Char.ofNat 11 || c == Char.ofNat 12

/-- Model of Python `str.strip()` on the character list. -/
def pyStripChars (l : List Char) : List Char :=
  ((l.dropWhile pyIsSpace).reverse.dropWhile pyIsSpace).reverse

/-- Model of Python `str.strip()`. -/
def pyStrip (s : String) : String := ⟨pyStripChars s.data⟩

/-- Fuel-driven worker for Python `str.split(sep)` with a non-empty separator:
splits at each non-overlapping occurrence of `sep`, left to right. -/
def pySplitAux (sep : List Char) : Nat → List Char → List Char → List (List Char)
  | 0, s, acc => [acc.reverse ++ s]
  | fuel + 1, s, acc =>
    match s with
    | [] => [acc.reverse]
    | c :: rest =>
      if sep.isPrefixOf (c :: rest) then
        acc.reverse :: pySplitAux sep fuel ((c :: rest).drop sep.length) []
      else
        pySplitAux sep fuel rest (c :: acc)

/-- Model of Python `s.split(sep)` (non-empty `sep`). -/
def pySplit (s sep : String) : List String :=
  (pySplitAux sep.data (s.data.length + 1) s.data []).map (fun l => ⟨l⟩)

/-- Fuel-driven worker for Python `str.replace(old, new)`: replaces every
non-overlapping occurrence, left to right. -/
def pyReplaceAux (old new : List Char) : Nat → List Char → List Char
  | 0, s => s
  | fuel + 1, s =>
    match s with
    | [] => []
    | c :: rest =>
      if old.isPrefixOf (c :: rest) then
        new ++ pyReplaceAux old new fuel ((c :: rest).drop old.length)
      else
        c :: pyReplaceAux old new fuel rest

/-- Model of Python `s.replace(old, new)` (non-empty `old`). -/
def pyReplace (s old new : String) : String :=
  ⟨pyReplaceAux old.data new.data (s.data.length + 1) s.data⟩

/-- Model of Python `s.startswith(pre)`. -/
def pyStartsWith (s pre : String) : Bool := pre.data.isPrefixOf s.data

/-- Decimal digit character for `n % 10`. -/
def digitChar10 (n : Nat) : Char := Char.ofNat (48 + n % 10)

/-- Fuel-driven decimal digit expansion of a natural number. -/
def natDigitsAux : Nat → Nat → List Char → List Char
  | 0, _, acc => acc
  | fuel + 1, n, acc =>
    if n < 10 then digitChar10 n :: acc
    else natDigitsAux fuel (n / 10) (digitChar10 (n % 10) :: acc)

/-- Model of Python `str(n)` for a natural number. -/
def pyStr (n : Nat) : String := ⟨natDigitsAux (n + 1) n []⟩

/-- Model of the Python format `f"\x7bn:03d\x7d"`: zero-pad to width three. -/
def pyFormat03 (n : Nat) : String :=
  if n < 10 then "00" ++ pyStr n
  else if n < 100 then "0" ++ pyStr n
  else pyStr n

/-- `TestPriority` from `app/models/test_case.py`. -/
inductive TestPriority
  | HIGH
  | MEDIUM
  | LOW
deriving DecidableEq, Repr

/-- `TestCaseType` from `app/models/test_case.py`. -/
inductive TestCaseType
  | UI_INTERACTION
  | GAME_MECHANICS
  | PERFORMANCE
  | ERROR_HANDLING
deriving DecidableEq, Repr

/-- `TestCase` from `app/models/test_case.py`.  The optional `rank_score`
(`Optional[float]`, default `None`) is an exact rational. -/
structure TestCase where
  id : String
  name : String
  description : String
  test_type : TestCaseType
  priority : TestPriority
  steps : List String
  expected_outcome : String
  validation_criteria : List String
  estimated_duration : Nat := 60
  rank_score : Option ℚ := none
deriving DecidableEq, Repr

/-- The execution-result dictionary produced by `BrowserService.execute_test_case`
and by `ExecutorAgent.execute_test_cases`.  The `error_message` key is absent
from some producers, hence `Option`. -/
structure ExecResult where
  test_case_id : String
  start_time : String
  duration_ms : Nat
  status : String
  verdict : String
  artifacts : List String
  error_message : Option String := none
deriving DecidableEq, Repr

/-- `TestReport` from `app/models/test_case.py` (`success_rate` as an exact
rational, timestamps as opaque strings). -/
structure TestReport where
  task_id : String
  target_url : String
  timestamp : String
  total_candidates : Nat
  executed_tests : Nat
  success_rate : ℚ
  execution_results : List ExecResult
  artifacts : List String
deriving DecidableEq, Repr

/-- One status observation written by `OrchestratorAgent._update_task_status`. -/
structure StatusObs where
  status : String
  message : String
  updated_at : String
deriving DecidableEq, Repr

namespace ExecutorAgent

/-- `self.max_concurrent_tests = 3` from `ExecutorAgent.__init__`. -/
def max_concurrent_tests : Nat := 3

/-- The substitute dictionary `ExecutorAgent.execute_test_cases` appends when
`asyncio.gather` hands back an exception for one test case: identifier of the
faulting specification, current time, zero duration, status `ERROR`, verdict
`FAIL`, no artifacts, and `str(exception)` as the error message. -/
def substitute_error_result (tc : TestCase) (now_iso msg : String) : ExecResult :=
  { test_case_id := tc.id
    start_time := now_iso
    duration_ms := 0
    status := "ERROR"
    verdict := "FAIL"
    artifacts := []
    error_message := some msg }

/-- `asyncio.gather(*tasks, return_exceptions=True)` over the per-test tasks:
one outcome per test case, in task (input) order, exceptions returned as
values.  The behaviour of one `run_single` call is the environment `run`. -/
def gather_results (run : TestCase → Except String ExecResult)
    (test_cases : List TestCase) : List (Except String ExecResult) :=
  test_cases.map run

/-- The `for i, res in enumerate(results)` loop of
`ExecutorAgent.execute_test_cases`: an exception outcome becomes the
substitute error dictionary for `test_cases[i]`, a normal outcome is appended
unchanged. -/
def process_loop (now_iso : String) :
    List TestCase → List (Except String ExecResult) → List ExecResult
  | _, [] => []
  | [], _ :: _ => []
  | tc :: tcs, r :: rs =>
    (match r with
     | Except.error msg => substitute_error_result tc now_iso msg
     | Except.ok ok => ok) :: process_loop now_iso tcs rs

/-- `ExecutorAgent.execute_test_cases`: gather all per-test outcomes, then
post-process them into one `ExecResult` per input test case. -/
def execute_test_cases (run : TestCase → Except String ExecResult)
    (now_iso : String) (test_cases : List TestCase) : List ExecResult :=
  process_loop now_iso test_cases (gather_results run test_cases)

/-- What the coordinator produces for one test case: the run's own result, or
the substitute error entry when the run's exception escaped. -/
def process_result (now_iso : String) (run : TestCase → Except String ExecResult)
    (tc : TestCase) : ExecResult :=
  match run tc with
  | Except.error msg => substitute_error_result tc now_iso msg
  | Except.ok r => r

theorem process_loop_map (now_iso : String) (run : TestCase → Except String ExecResult) :
    ∀ test_cases : List TestCase,
      process_loop now_iso test_cases (test_cases.map run) =
        test_cases.map (process_result now_iso run) := by
  intro test_cases
  induction test_cases with
  | nil => rfl
  | cons tc tcs ih =>
    simp only [List.map_cons, process_loop, process_result, ih]

theorem execute_test_cases_eq_map (run : TestCase → Except String ExecResult)
    (now_iso : String) (test_cases : List TestCase) :
    execute_test_cases run now_iso test_cases =
      test_cases.map (process_result now_iso run) := by
  unfold execute_test_cases gather_results
  exact process_loop_map now_iso run test_cases

end ExecutorAgent

/-- A concrete test case used to instantiate universally quantified theorems. -/
def sampleTc : TestCase :=
  { id := "test_001"
    name := "Language Selection Test"
    description := "Test the language selection screen"
    test_type := TestCaseType.UI_INTERACTION
    priority := TestPriority.HIGH
    steps := ["Navigate to game", "Click on English button"]
    expected_outcome := "Game loads"
    validation_criteria := ["Game loads"] }

/-- A second concrete test case. -/
def sampleTc2 : TestCase :=
  { id := "test_002"
    name := "Game Board Load Test"
    description := "Verify the main game board loads"
    test_type := TestCaseType.GAME_MECHANICS
    priority := TestPriority.MEDIUM
    steps := ["Navigate to game"]
    expected_outcome := "Board visible"
    validation_criteria := ["Board visible"] }

/-- A concrete successful run outcome. -/
def sampleOkResult : ExecResult :=
  { test_case_id := "test_001"
    start_time := "2024-01-01T00:00:00"
    duration_ms := 120
    status := "PASS"
    verdict := "PASS"
    artifacts := ["artifacts/screenshots/t_test_001_start.png"] }

/-- C1: for every ordered list of test specifications,
`ExecutorAgent.execute_test_cases` returns exactly one `ExecutionResult` per
input specification, in the same order as the input list, regardless of which
individual runs raise exceptions (the `run` environment is arbitrary, so any
subset of runs may fault): the output length equals the input length, and the
i-th output is the processed outcome of the i-th input specification. -/
theorem executeAll_one_result_per_spec_in_input_order
    (run : TestCase → Except String ExecResult) (now_iso : String)
    (test_cases : List TestCase) :
    (ExecutorAgent.execute_test_cases run now_iso test_cases).length =
      test_cases.length ∧
    ∀ i (hi : i < test_cases.length),
      (ExecutorAgent.execute_test_cases run now_iso test_cases)[i]? =
        some (ExecutorAgent.process_result now_iso run test_cases[i]) := by
  rw [ExecutorAgent.execute_test_cases_eq_map]
  refine ⟨List.length_map _ _, ?_⟩
  intro i hi
  rw [List.getElem?_map, List.getElem?_eq_getElem hi]
  rfl

/-- Witness for C1 at a concrete two-element batch in which the second run
raises: both results are present, in input order. -/
theorem executeAll_one_result_per_spec_witness :
    (ExecutorAgent.execute_test_cases
        (fun tc => if tc.id = "test_001" then Except.ok sampleOkResult
                   else Except.error "browser crashed")
        "2024-01-01T00:00:01" [sampleTc, sampleTc2]).length = 2 ∧
    (ExecutorAgent.execute_test_cases
        (fun tc => if tc.id = "test_001" then Except.ok sampleOkResult
                   else Except.error "browser crashed")
        "2024-01-01T00:00:01" [sampleTc, sampleTc2])[1]? =
      some (ExecutorAgent.process_result "2024-01-01T00:00:01"
        (fun tc => if tc.id = "test_001" then Except.ok sampleOkResult
                   else Except.error "browser crashed") sampleTc2) := by
  obtain ⟨hlen, hord⟩ := executeAll_one_result_per_spec_in_input_order
    (fun tc => if tc.id = "test_001" then Except.ok sampleOkResult
               else Except.error "browser crashed")
    "2024-01-01T00:00:01" [sampleTc, sampleTc2]
  refine ⟨hlen, ?_⟩
  have h1 := hord 1 (by decide)
  simpa [sampleTc2] using h1

/-- C2 counterexample: at the concrete one-element batch whose single run
raises `"browser crashed"`, the substitute record the coordinator fabricates
has verdict `"FAIL"`, not `"ERROR"` (its `status` field is the one set to
`"ERROR"`), so the claim that the substitute `ExecutionResult` carries
verdict ERROR is false on the code. -/
theorem escaped_fault_verdict_counterexample :
    (ExecutorAgent.execute_test_cases (fun _ => Except.error "browser crashed")
        "2024-01-01T00:00:01" [sampleTc]).map (fun r => r.verdict) = ["FAIL"] ∧
    ("FAIL" : String) ≠ "ERROR" := by
  exact ⟨rfl, by decide⟩

/-- C2 amended: for every test specification whose run raises an exception
that escapes the Test Runner's own containment, the Execution Coordinator
produces a well-formed substitute `ExecutionResult` for that specification —
with `status` field `"ERROR"`, `verdict` field `"FAIL"`, and a populated
error message — rather than aborting the batch or dropping the entry: the
output still has one entry per input specification and the i-th entry is the
substitute record. -/
theorem escaped_fault_yields_substitute_entry
    (run : TestCase → Except String ExecResult) (now_iso : String)
    (test_cases : List TestCase) (i : Nat) (hi : i < test_cases.length)
    (msg : String) (he : run test_cases[i] = Except.error msg) :
    (ExecutorAgent.execute_test_cases run now_iso test_cases).length =
      test_cases.length ∧
    (ExecutorAgent.execute_test_cases run now_iso test_cases)[i]? =
      some (ExecutorAgent.substitute_error_result test_cases[i] now_iso msg) ∧
    (ExecutorAgent.substitute_error_result test_cases[i] now_iso msg).status =
      "ERROR" ∧
    (ExecutorAgent.substitute_error_result test_cases[i] now_iso msg).verdict =
      "FAIL" ∧
    (ExecutorAgent.substitute_error_result test_cases[i] now_iso msg).error_message =
      some msg := by
  rw [ExecutorAgent.execute_test_cases_eq_map]
  refine ⟨List.length_map _ _, ?_, rfl, rfl, rfl⟩
  rw [List.getElem?_map, List.getElem?_eq_getElem hi]
  simp [ExecutorAgent.process_result, he]

/-- Witness for the amended C2 at a concrete faulting batch. -/
theorem escaped_fault_yields_substitute_entry_witness :
    (ExecutorAgent.execute_test_cases (fun _ => Except.error "browser crashed")
        "2024-01-01T00:00:01" [sampleTc]).length = 1 ∧
    (ExecutorAgent.execute_test_cases (fun _ => Except.error "browser crashed")
        "2024-01-01T00:00:01" [sampleTc])[0]? =
      some (ExecutorAgent.substitute_error_result sampleTc "2024-01-01T00:00:01"
        "browser crashed") ∧
    (ExecutorAgent.substitute_error_result sampleTc "2024-01-01T00:00:01"
        "browser crashed").status = "ERROR" ∧
    (ExecutorAgent.substitute_error_result sampleTc "2024-01-01T00:00:01"
        "browser crashed").verdict = "FAIL" ∧
    (ExecutorAgent.substitute_error_result sampleTc "2024-01-01T00:00:01"
        "browser crashed").error_message = some "browser crashed" := by
  exact escaped_fault_yields_substitute_entry
    (fun _ => Except.error "browser crashed") "2024-01-01T00:00:01"
    [sampleTc] 0 (by decide) "browser crashed" rfl

/-- C10: for every run whose exception escapes to the Execution Coordinator,
the substitute record it fabricates carries the faulting specification's
identifier, the exception's text as `error_message`, `duration_ms = 0`, and
an empty artifacts list — so an escaped-fault entry contributes no artifacts
and reports zero duration. -/
theorem escaped_fault_substitute_fields
    (run : TestCase → Except String ExecResult) (now_iso : String)
    (test_cases : List TestCase) (i : Nat) (hi : i < test_cases.length)
    (msg : String) (he : run test_cases[i] = Except.error msg) :
    (ExecutorAgent.execute_test_cases run now_iso test_cases)[i]? = some
      { test_case_id := test_cases[i].id
        start_time := now_iso
        duration_ms := 0
        status := "ERROR"
        verdict := "FAIL"
        artifacts := []
        error_message := some msg } := by
  rw [ExecutorAgent.execute_test_cases_eq_map]
  rw [List.getElem?_map, List.getElem?_eq_getElem hi]
  simp [ExecutorAgent.process_result, he]
  rfl

/-- Witness for C10 at a concrete faulting batch. -/
theorem escaped_fault_substitute_fields_witness :
    (ExecutorAgent.execute_test_cases (fun _ => Except.error "timeout after 300s")
        "2024-01-01T00:00:05" [sampleTc2])[0]? = some
      { test_case_id := sampleTc2.id
        start_time := "2024-01-01T00:00:05"
        duration_ms := 0
        status := "ERROR"
        verdict := "FAIL"
        artifacts := []
        error_message := some "timeout after 300s" } := by
  exact escaped_fault_substitute_fields
    (fun _ => Except.error "timeout after 300s") "2024-01-01T00:00:05"
    [sampleTc2] 0 (by decide) "timeout after 300s" rfl

/-- Phase of one `run_single` task of `ExecutorAgent.execute_test_cases`:
before `async with semaphore` (waiting), inside the `async with` block
(running the browser test), or finished (the `async with` exit released the
slot). -/
inductive RunPhase
  | waiting
  | running
  | done
deriving DecidableEq, Repr

/-- Scheduler state for one batch: the free-slot count of
`asyncio.Semaphore(self.max_concurrent_tests)` and the phase of each task. -/
structure SemState where
  avail : Nat
  tasks : List RunPhase
deriving DecidableEq, Repr

/-- Cooperative-scheduler step relation for the semaphore-governed batch:
a waiting task may enter the `async with` block only when a slot is free
(`asyncio.Semaphore.acquire` suspends the task otherwise), and a running task
may finish, handing its slot back (`release` on block exit). -/
inductive SemStep : SemState → SemState → Prop
  | acquire (s : SemState) (i : Nat) (h : s.tasks[i]? = some RunPhase.waiting)
      (ha : 0 < s.avail) :
      SemStep s ⟨s.avail - 1, s.tasks.set i RunPhase.running⟩
  | release (s : SemState) (i : Nat) (h : s.tasks[i]? = some RunPhase.running) :
      SemStep s ⟨s.avail + 1, s.tasks.set i RunPhase.done⟩

/-- Initial state of a batch of `n` test cases: all tasks launched and
waiting on the gate, all `max_concurrent_tests` slots free. -/
def initSem (n : Nat) : SemState :=
  ⟨ExecutorAgent.max_concurrent_tests, List.replicate n RunPhase.waiting⟩

/-- States the batch scheduler can reach from the initial state. -/
inductive SemReachable (n : Nat) : SemState → Prop
  | init : SemReachable n (initSem n)
  | step {s t : SemState} : SemReachable n s → SemStep s t → SemReachable n t

/-- Number of Test Runner invocations currently inside the `async with
semaphore` block. -/
def runningCount (s : SemState) : Nat :=
  s.tasks.countP (fun p => p == RunPhase.running)

theorem countP_set_of_getElem? (p : RunPhase → Bool) :
    ∀ (l : List RunPhase) (i : Nat) (a b : RunPhase), l[i]? = some b →
      (l.set i a).countP p + (if p b then 1 else 0) =
        l.countP p + (if p a then 1 else 0) := by
  intro l
  induction l with
  | nil => intro i a b h; simp at h
  | cons x xs ih =>
    intro i a b h
    cases i with
    | zero =>
      simp only [List.getElem?_cons_zero, Option.some.injEq] at h
      subst h
      simp only [List.set_cons_zero, List.countP_cons]
      omega
    | succ j =>
      simp only [List.getElem?_cons_succ] at h
      simp only [List.set_cons_succ, List.countP_cons]
      have := ih j a b h
      omega

/-- Slot-conservation invariant: in every reachable state, the number of
running Test Runner invocations plus the number of free semaphore slots
equals `max_concurrent_tests`. -/
theorem runningCount_add_avail (n : Nat) :
    ∀ s, SemReachable n s →
      runningCount s + s.avail = ExecutorAgent.max_concurrent_tests := by
  intro s hs
  induction hs with
  | init =>
    have hz : runningCount (initSem n) = 0 := by
      simp only [runningCount, initSem]
      rw [List.countP_eq_zero]
      intro a ha
      rcases List.eq_of_mem_replicate ha with rfl
      decide
    rw [hz]
    simp [initSem, ExecutorAgent.max_concurrent_tests]
  | @step s t hr hstep ih =>
    cases hstep with
    | acquire i h ha =>
      have hc := countP_set_of_getElem? (fun p => p == RunPhase.running)
        s.tasks i RunPhase.running RunPhase.waiting h
      simp only [runningCount] at ih ⊢
      simp at hc
      omega
    | release i h =>
      have hc := countP_set_of_getElem? (fun p => p == RunPhase.running)
        s.tasks i RunPhase.done RunPhase.running h
      simp only [runningCount] at ih ⊢
      simp at hc
      omega

/-- C4: for every batch, in every state the semaphore-governed scheduler can
reach, at most `max_concurrent_tests = 3` Test Runner invocations are inside
the `async with semaphore` block concurrently; moreover, when three
invocations are running no slot is free, and since an `acquire` step requires
a free slot, excess runs stay suspended on the gate until a running task
frees one. -/
theorem concurrent_runs_bounded_by_semaphore (n : Nat) (s : SemState)
    (hs : SemReachable n s) :
    runningCount s ≤ ExecutorAgent.max_concurrent_tests ∧
    (runningCount s = ExecutorAgent.max_concurrent_tests → s.avail = 0) := by
  have hinv := runningCount_add_avail n s hs
  exact ⟨by omega, fun _ => by omega⟩

/-- Witness for C4: a concrete reachable state of a five-test batch — two
acquisitions after the initial state — satisfies the bound. -/
theorem concurrent_runs_bounded_witness :
    runningCount ⟨1, [RunPhase.running, RunPhase.running, RunPhase.waiting,
      RunPhase.waiting, RunPhase.waiting]⟩ ≤
      ExecutorAgent.max_concurrent_tests := by
  have h0 : SemReachable 5 (initSem 5) := SemReachable.init
  have h1 : SemReachable 5 ⟨2, (List.replicate 5 RunPhase.waiting).set 0 RunPhase.running⟩ :=
    SemReachable.step h0 (SemStep.acquire (initSem 5) 0 (by decide) (by decide))
  have h2 : SemReachable 5 ⟨1, (((List.replicate 5 RunPhase.waiting).set 0
      RunPhase.running).set 1 RunPhase.running)⟩ :=
    SemReachable.step h1 (SemStep.acquire _ 1 (by decide) (by decide))
  have heq : ((((List.replicate 5 RunPhase.waiting).set 0
      RunPhase.running).set 1 RunPhase.running)) =
      [RunPhase.running, RunPhase.running, RunPhase.waiting,
        RunPhase.waiting, RunPhase.waiting] := by decide
  have := concurrent_runs_bounded_by_semaphore 5 _ h2
  rw [heq] at this
  exact this.1

namespace BrowserService

/-- Environment of one `BrowserService.execute_test_case` invocation (the
Playwright variant): the outcomes of `browser.new_context()`,
`ctx.new_page()`, `page.goto` together with the initial waits and the fully
absorbed language-selection block, `_execute_game_step` per step index,
`_capture_screenshot` per label, and the two `finally`-block closes; plus the
wall-clock readings.  `Except.error e` models the call raising an exception
with text `e`. -/
structure BrowserEnv where
  new_context : Except String Unit
  new_page : Except String Unit
  goto : Except String Unit
  run_step : Nat → String → Except String Unit
  capture : String → Except String String
  page_close : Except String Unit
  ctx_close : Except String Unit
  start_iso : String
  duration_ms : Nat

/-- The step loop of `execute_test_case`: run `_execute_game_step` for step
`i`, then capture the `step_i+1` screenshot; on the first fault, return the
artifacts accumulated so far together with the fault. -/
def run_steps (env : BrowserEnv) :
    Nat → List String → List String → List String × Option String
  | _, [], acc => (acc, none)
  | i, s :: rest, acc =>
    match env.run_step i s with
    | Except.error e => (acc, some e)
    | Except.ok _ =>
      match env.capture ("step_" ++ pyStr (i + 1)) with
      | Except.error e => (acc, some e)
      | Except.ok a => run_steps env (i + 1) rest (acc ++ [a])

/-- Body of the `try` block of `execute_test_case`: navigate, capture the
`start` screenshot, then run the steps; returns the artifacts collected so
far and the first fault, if any. -/
def try_body (env : BrowserEnv) (tc : TestCase) : List String × Option String :=
  match env.goto with
  | Except.error e => ([], some e)
  | Except.ok _ =>
    match env.capture "start" with
    | Except.error e => ([], some e)
    | Except.ok a0 => run_steps env 0 tc.steps [a0]

/-- The `finally` block: `page.close()` then `ctx.close()`; an exception
raised by either close replaces whatever the function was about to return or
raise (Python `finally` semantics). -/
def close_then (env : BrowserEnv) (out : Except String ExecResult) :
    Except String ExecResult :=
  match env.page_close with
  | Except.error e => Except.error e
  | Except.ok _ =>
    match env.ctx_close with
    | Except.error e => Except.error e
    | Except.ok _ => out

/-- The dictionary `execute_test_case` returns: `status` and `verdict` both
hold the verdict string, and there is no `error_message` key at all. -/
def mk_result (env : BrowserEnv) (tc : TestCase) (verdict : String)
    (arts : List String) : ExecResult :=
  { test_case_id := tc.id
    start_time := env.start_iso
    duration_ms := env.duration_ms
    status := verdict
    verdict := verdict
    artifacts := arts
    error_message := none }

/-- `BrowserService.execute_test_case` (Playwright variant): context and page
creation happen before the `try`, so their faults propagate; a fault inside
the `try` is caught, sets verdict `FAIL`, and appends an `error` screenshot —
whose own fault propagates; the `finally` closes run on every path. -/
def execute_test_case (env : BrowserEnv) (tc : TestCase) :
    Except String ExecResult :=
  match env.new_context with
  | Except.error e => Except.error e
  | Except.ok _ =>
    match env.new_page with
    | Except.error e => Except.error e
    | Except.ok _ =>
      match try_body env tc with
      | (arts, none) => close_then env (Except.ok (mk_result env tc "PASS" arts))
      | (arts, some _) =>
        match env.capture "error" with
        | Except.error e2 => close_then env (Except.error e2)
        | Except.ok ae =>
          close_then env (Except.ok (mk_result env tc "FAIL" (arts ++ [ae])))

end BrowserService

/-- A concrete environment in which navigation, screenshots and closes all
succeed but the first game step raises `"click timeout"`. -/
def cexEnv : BrowserService.BrowserEnv :=
  { new_context := Except.ok ()
    new_page := Except.ok ()
    goto := Except.ok ()
    run_step := fun _ _ => Except.error "click timeout"
    capture := fun label =>
      Except.ok ("artifacts/screenshots/t_test_001_" ++ label ++ ".png")
    page_close := Except.ok ()
    ctx_close := Except.ok ()
    start_iso := "2024-01-01T00:00:00"
    duration_ms := 42 }

/-- C3 counterexample: at a concrete input whose first step execution raises,
`BrowserService.execute_test_case` returns a result whose verdict is `"FAIL"`
— not `"ERROR"` — and whose error message is absent rather than populated, so
the claim that every fault is converted into an `ExecutionResult` with
verdict ERROR and a populated error message is false on the code. -/
theorem runner_fault_conversion_counterexample :
    BrowserService.execute_test_case cexEnv sampleTc =
      Except.ok
        { test_case_id := "test_001"
          start_time := "2024-01-01T00:00:00"
          duration_ms := 42
          status := "FAIL"
          verdict := "FAIL"
          artifacts := ["artifacts/screenshots/t_test_001_start.png",
            "artifacts/screenshots/t_test_001_error.png"]
          error_message := none } ∧
    ("FAIL" : String) ≠ "ERROR" := by
  exact ⟨rfl, by decide⟩

/-- C3 amended: provided context and page creation, the error-path artifact
capture, and the `finally` closes all succeed, `execute_test_case` never
propagates an exception: a fault arising during navigation, step execution,
or start/step artifact capture is caught and converted into an
`ExecutionResult` with verdict `FAIL` (not ERROR) and with no error message;
a fault-free `try` body yields verdict `PASS`.  Every result it returns has
an absent error message. -/
theorem runner_contains_try_block_faults (env : BrowserService.BrowserEnv)
    (tc : TestCase) (aerr : String)
    (hnc : env.new_context = Except.ok ()) (hnp : env.new_page = Except.ok ())
    (hcap : env.capture "error" = Except.ok aerr)
    (hpc : env.page_close = Except.ok ()) (hcc : env.ctx_close = Except.ok ()) :
    (∀ arts, BrowserService.try_body env tc = (arts, none) →
      BrowserService.execute_test_case env tc =
        Except.ok (BrowserService.mk_result env tc "PASS" arts)) ∧
    (∀ arts e, BrowserService.try_body env tc = (arts, some e) →
      BrowserService.execute_test_case env tc =
        Except.ok (BrowserService.mk_result env tc "FAIL" (arts ++ [aerr]))) ∧
    (∀ r, BrowserService.execute_test_case env tc = Except.ok r →
      r.error_message = none ∧ r.test_case_id = tc.id) := by
  refine ⟨?_, ?_, ?_⟩
  · intro arts hb
    simp [BrowserService.execute_test_case, BrowserService.close_then,
      hnc, hnp, hpc, hcc, hb]
  · intro arts e hb
    simp [BrowserService.execute_test_case, BrowserService.close_then,
      hnc, hnp, hpc, hcc, hcap, hb]
  · intro r hr
    simp only [BrowserService.execute_test_case, BrowserService.close_then,
      hnc, hnp, hpc, hcc, hcap] at hr
    rcases hb : BrowserService.try_body env tc with ⟨arts, fo⟩
    rw [hb] at hr
    cases fo with
    | none =>
      simp only [Except.ok.injEq] at hr
      subst hr
      exact ⟨rfl, rfl⟩
    | some e =>
      simp only [Except.ok.injEq] at hr
      subst hr
      exact ⟨rfl, rfl⟩

/-- Witness for the amended C3 at the concrete faulting environment. -/
theorem runner_contains_try_block_faults_witness :
    BrowserService.execute_test_case cexEnv sampleTc =
      Except.ok (BrowserService.mk_result cexEnv sampleTc "FAIL"
        (["artifacts/screenshots/t_test_001_start.png"] ++
          ["artifacts/screenshots/t_test_001_error.png"])) := by
  exact (runner_contains_try_block_faults cexEnv sampleTc
    "artifacts/screenshots/t_test_001_error.png" rfl rfl rfl rfl rfl).2.1
    ["artifacts/screenshots/t_test_001_start.png"] "click timeout" rfl

/-- Fuel-driven worker for one `digitpart` of the Python float grammar
(`digit (["_"] digit)*`): accumulates the decimal value and the digit count,
allowing a single underscore only between two digits. -/
def parseDigitsUAux : Nat → List Char → Nat → Nat → Option (Nat × Nat)
  | _, [], acc, nd => some (acc, nd)
  | 0, _ :: _, _, _ => none
  | fuel + 1, c :: rest, acc, nd =>
    if c.toNat ≥ 48 && c.toNat ≤ 57 then
      parseDigitsUAux fuel rest (acc * 10 + (c.toNat - 48)) (nd + 1)
    else if c == '_' then
      match rest with
      | [] => none
      | d :: rest2 =>
        if d.toNat ≥ 48 && d.toNat ≤ 57 then
          parseDigitsUAux fuel rest2 (acc * 10 + (d.toNat - 48)) (nd + 1)
        else none
    else none

/-- One `digitpart` of the Python float grammar: non-empty, starts with a
digit, underscores only between digits; yields the value and digit count. -/
def parseDigitPartU (l : List Char) : Option (Nat × Nat) :=
  match l with
  | [] => none
  | c :: _ =>
    if c.toNat ≥ 48 && c.toNat ≤ 57 then parseDigitsUAux (l.length + 1) l 0 0
    else none

/-- Modelled from the Python builtin `float(s)` on literals denoting finite
values: optional surrounding whitespace and sign, a decimal mantissa with at
most one point and underscore digit grouping, and an optional `e`/`E`
exponent with optional sign.  The non-finite literals (`inf`, `infinity`,
`nan`) have no rational value and are treated as parse failures here — a
documented boundary of the exact-rational score model; every other rejected
input is one `float()` also rejects, raising the `ValueError` that
`_apply_rankings` catches to skip the line. -/
def parseFloatQ (s : String) : Option ℚ :=
  let t := pyStripChars s.data
  let sb : ℚ × List Char :=
    match t with
    | '-' :: rest => (-1, rest)
    | '+' :: rest => (1, rest)
    | l => (1, l)
  let mant := sb.2.takeWhile (fun c => !(c == 'e' || c == 'E'))
  let ip := mant.takeWhile (fun c => c != '.')
  let mval : Option ℚ :=
    match mant.dropWhile (fun c => c != '.') with
    | [] => (parseDigitPartU ip).map (fun p => (p.1 : ℚ))
    | _ :: fp =>
      if fp.contains '.' then none
      else
        match ip, fp with
        | [], [] => none
        | [], _ :: _ =>
          (parseDigitPartU fp).map (fun p => (p.1 : ℚ) / (10 : ℚ) ^ p.2)
        | _ :: _, [] => (parseDigitPartU ip).map (fun p => (p.1 : ℚ))
        | _ :: _, _ :: _ =>
          match parseDigitPartU ip, parseDigitPartU fp with
          | some a, some b => some ((a.1 : ℚ) + (b.1 : ℚ) / (10 : ℚ) ^ b.2)
          | _, _ => none
  let scaled : Option ℚ :=
    match sb.2.dropWhile (fun c => !(c == 'e' || c == 'E')) with
    | [] => mval
    | _ :: erest =>
      let eb : Bool × List Char :=
        match erest with
        | '-' :: r => (true, r)
        | '+' :: r => (false, r)
        | r => (false, r)
      match mval, parseDigitPartU eb.2 with
      | some m, some p =>
        some (if eb.1 then m / (10 : ℚ) ^ p.1 else m * (10 : ℚ) ^ p.1)
      | _, _ => none
  scaled.map (fun v => sb.1 * v)

/-- Python `line.split(sep, 1)` for a line known to contain `sep`: the part
before the first occurrence and everything after it. -/
def splitOnce (s sep : String) : Option (String × String) :=
  match pySplit s sep with
  | [] => none
  | [_] => none
  | a :: rest => some (a, String.intercalate sep rest)

namespace RankerAgent

/-- The inner loop of `RankerAgent._apply_rankings`: set the rank score of
the first test case whose id matches (`for test in test_cases: if test.id ==
test_id: ...; break`). -/
def set_score_first (ts : List TestCase) (tid : String) (score : ℚ) :
    List TestCase :=
  match ts with
  | [] => []
  | t :: rest =>
    if t.id = tid then { t with rank_score := some score } :: rest
    else t :: set_score_first rest tid score

/-- One iteration of `_apply_rankings` over a response line: lines without a
colon are skipped, the id is the part before the first colon (stripped), the
score is the stripped remainder parsed as a float, and an unparsable score is
skipped. -/
def apply_line (ts : List TestCase) (line : String) : List TestCase :=
  match splitOnce line ":" with
  | none => ts
  | some (tid, scoreStr) =>
    match parseFloatQ (pyStrip scoreStr) with
    | none => ts
    | some sc => set_score_first ts (pyStrip tid) sc

/-- `RankerAgent._apply_rankings`: fold the line updates of
`response.strip().split('\n')` over the test-case list. -/
def apply_rankings (ts : List TestCase) (response : String) : List TestCase :=
  (pySplit (pyStrip response) "\n").foldl apply_line ts

/-- The sort key `lambda t: t.rank_score or 0`. -/
def score_or_zero (t : TestCase) : ℚ := t.rank_score.getD 0

/-- Comparison used to model `sorted(..., key=..., reverse=True)`: `a` may
come before `b` when its key is at least `b`'s. -/
def rank_desc (a b : TestCase) : Bool :=
  decide (score_or_zero b ≤ score_or_zero a)

/-- `RankerAgent._fallback_ranking`: priority buckets 90 / 70 / 50. -/
def priority_score : TestPriority → ℚ
  | TestPriority.HIGH => 90
  | TestPriority.MEDIUM => 70
  | TestPriority.LOW => 50

/-- `RankerAgent._fallback_ranking`: annotate every test with its priority
bucket score, then sort descending. -/
def fallback_ranking (test_cases : List TestCase) : List TestCase :=
  (test_cases.map
    (fun t => { t with rank_score := some (priority_score t.priority) })).mergeSort
    rank_desc

/-- `RankerAgent.rank_test_cases`: on a successful model call, apply the
parsed rankings and sort descending by `rank_score or 0`; when the call (or
anything before the sort) raises, fall back to `_fallback_ranking`. -/
def rank_test_cases (test_cases : List TestCase) (llm : Except String String) :
    List TestCase :=
  match llm with
  | Except.error _ => fallback_ranking test_cases
  | Except.ok resp => (apply_rankings test_cases resp).mergeSort rank_desc

end RankerAgent

/-- Forget the rank-score annotation of a test case. -/
def erase_rank_score (t : TestCase) : TestCase := { t with rank_score := none }

theorem set_score_first_map_erase (tid : String) (sc : ℚ) :
    ∀ ts : List TestCase,
      (RankerAgent.set_score_first ts tid sc).map erase_rank_score =
        ts.map erase_rank_score := by
  intro ts
  induction ts with
  | nil => rfl
  | cons t rest ih =>
    by_cases h : t.id = tid
    · simp [RankerAgent.set_score_first, h, erase_rank_score]
    · simp [RankerAgent.set_score_first, h, erase_rank_score, ih]

theorem apply_line_map_erase (line : String) (ts : List TestCase) :
    (RankerAgent.apply_line ts line).map erase_rank_score =
      ts.map erase_rank_score := by
  unfold RankerAgent.apply_line
  rcases h : splitOnce line ":" with _ | ⟨tid, scoreStr⟩
  · rfl
  · rcases h2 : parseFloatQ (pyStrip scoreStr) with _ | sc
    · simp only [h2]
    · simp only [h2]
      exact set_score_first_map_erase (pyStrip tid) sc ts

theorem apply_rankings_map_erase (response : String) (ts : List TestCase) :
    (RankerAgent.apply_rankings ts response).map erase_rank_score =
      ts.map erase_rank_score := by
  unfold RankerAgent.apply_rankings
  generalize pySplit (pyStrip response) "\n" = lines
  induction lines generalizing ts with
  | nil => rfl
  | cons line rest ih =>
    simp only [List.foldl_cons]
    rw [ih (RankerAgent.apply_line ts line), apply_line_map_erase]

theorem rank_desc_trans (a b c : TestCase) :
    RankerAgent.rank_desc a b = true → RankerAgent.rank_desc b c = true →
      RankerAgent.rank_desc a c = true := by
  simp only [RankerAgent.rank_desc, decide_eq_true_eq]
  exact fun h1 h2 => le_trans h2 h1

theorem rank_desc_total (a b : TestCase) :
    (RankerAgent.rank_desc a b || RankerAgent.rank_desc b a) = true := by
  simp only [RankerAgent.rank_desc, Bool.or_eq_true, decide_eq_true_eq]
  exact le_total _ _

theorem set_score_first_no_match (tid : String) (sc : ℚ) :
    ∀ ts : List TestCase, (∀ t ∈ ts, t.id ≠ tid) →
      RankerAgent.set_score_first ts tid sc = ts := by
  intro ts
  induction ts with
  | nil => intro _; rfl
  | cons t rest ih =>
    intro h
    have ht : t.id ≠ tid := h t (List.mem_cons_self t rest)
    simp only [RankerAgent.set_score_first, if_neg ht]
    rw [ih (fun u hu => h u (List.mem_cons_of_mem t hu))]

theorem set_score_first_first_match (tid : String) (sc : ℚ) :
    ∀ (pre : List TestCase) (t : TestCase) (post : List TestCase),
      (∀ u ∈ pre, u.id ≠ tid) → t.id = tid →
      RankerAgent.set_score_first (pre ++ t :: post) tid sc =
        pre ++ { t with rank_score := some sc } :: post := by
  intro pre
  induction pre with
  | nil =>
    intro t post _ ht
    simp only [List.nil_append, RankerAgent.set_score_first, if_pos ht]
  | cons u rest ih =>
    intro t post h ht
    have hu : u.id ≠ tid := h u (List.mem_cons_self u rest)
    simp only [List.cons_append, RankerAgent.set_score_first, if_neg hu]
    exact congrArg (fun l => u :: l)
      (ih t post (fun v hv => h v (List.mem_cons_of_mem u hv)) ht)

/-- C8 counterexample: on the concrete one-element input whose test carries
no rank score and a model response that mentions no test id (the empty
response), the Ranker returns the test still un-annotated, so the claim that
every returned specification is annotated with a rank score is false on the
code. -/
theorem ranker_annotation_counterexample :
    RankerAgent.rank_test_cases [sampleTc] (Except.ok "") = [sampleTc] ∧
    sampleTc.rank_score = none := by
  constructor
  · show (RankerAgent.apply_rankings [sampleTc] "").mergeSort
      RankerAgent.rank_desc = [sampleTc]
    have h : RankerAgent.apply_rankings [sampleTc] "" = [sampleTc] := rfl
    rw [h]
    exact List.perm_singleton.mp (List.mergeSort_perm [sampleTc] _)
  · rfl

/-- C8 amended: for every input list the Ranker returns a permutation of the
input modulo rank-score annotation (same specifications, none added or
removed), sorted in descending order of the effective score `rank_score or
0`; on a successful model call the returned list is exactly the line-update
pass `_apply_rankings` followed by the descending sort, where one score
update annotates precisely the first specification bearing the line's id and
leaves every other specification unchanged — so a list none of whose ids
match is left untouched and specifications the response does not mention keep
their previous (possibly absent) score; on failure it falls back — without
raising — to the deterministic priority-bucket annotation 90 / 70 / 50 with
HIGH > MEDIUM > LOW, every fallback result being annotated. -/
theorem ranker_permutation_sorted_and_fallback
    (tests : List TestCase) (llm : Except String String) (e resp : String) :
    ((RankerAgent.rank_test_cases tests llm).map erase_rank_score).Perm
      (tests.map erase_rank_score) ∧
    List.Pairwise
      (fun a b => RankerAgent.score_or_zero b ≤ RankerAgent.score_or_zero a)
      (RankerAgent.rank_test_cases tests llm) ∧
    RankerAgent.rank_test_cases tests (Except.error e) =
      RankerAgent.fallback_ranking tests ∧
    (∀ t ∈ RankerAgent.fallback_ranking tests,
      t.rank_score = some (RankerAgent.priority_score t.priority)) ∧
    RankerAgent.priority_score TestPriority.MEDIUM <
      RankerAgent.priority_score TestPriority.HIGH ∧
    RankerAgent.priority_score TestPriority.LOW <
      RankerAgent.priority_score TestPriority.MEDIUM ∧
    RankerAgent.rank_test_cases tests (Except.ok resp) =
      (RankerAgent.apply_rankings tests resp).mergeSort RankerAgent.rank_desc ∧
    (∀ (tid : String) (sc : ℚ), (∀ t ∈ tests, t.id ≠ tid) →
      RankerAgent.set_score_first tests tid sc = tests) ∧
    (∀ (tid : String) (sc : ℚ) (pre : List TestCase) (t : TestCase)
        (post : List TestCase), tests = pre ++ t :: post →
      (∀ u ∈ pre, u.id ≠ tid) → t.id = tid →
      RankerAgent.set_score_first tests tid sc =
        pre ++ { t with rank_score := some sc } :: post) := by
  refine ⟨?_, ?_, rfl, ?_, by decide, by decide, rfl, ?_, ?_⟩
  · cases llm with
    | error e' =>
      show ((RankerAgent.fallback_ranking tests).map erase_rank_score).Perm _
      unfold RankerAgent.fallback_ranking
      refine ((List.mergeSort_perm _ RankerAgent.rank_desc).map
        erase_rank_score).trans ?_
      rw [List.map_map]
      have : (erase_rank_score ∘ fun t =>
          { t with rank_score := some (RankerAgent.priority_score t.priority) }) =
          erase_rank_score := by
        funext t
        rfl
      rw [this]
    | ok resp =>
      show (((RankerAgent.apply_rankings tests resp).mergeSort
        RankerAgent.rank_desc).map erase_rank_score).Perm _
      refine ((List.mergeSort_perm _ RankerAgent.rank_desc).map
        erase_rank_score).trans ?_
      rw [apply_rankings_map_erase]
  · have hsorted : ∀ l : List TestCase,
        List.Pairwise
          (fun a b => RankerAgent.score_or_zero b ≤ RankerAgent.score_or_zero a)
          (l.mergeSort RankerAgent.rank_desc) := by
      intro l
      have := List.sorted_mergeSort rank_desc_trans rank_desc_total l
      exact this.imp (fun h => by
        simpa [RankerAgent.rank_desc, decide_eq_true_eq] using h)
    cases llm with
    | error e' => exact hsorted _
    | ok resp => exact hsorted _
  · intro t ht
    unfold RankerAgent.fallback_ranking at ht
    have hmem := (List.mergeSort_perm _ RankerAgent.rank_desc).mem_iff.mp ht
    rcases List.mem_map.mp hmem with ⟨u, _, rfl⟩
    rfl
  · intro tid sc h
    exact set_score_first_no_match tid sc tests h
  · intro tid sc pre t post heq hpre ht
    rw [heq]
    exact set_score_first_first_match tid sc pre t post hpre ht

/-- Witness for the amended C8: on a concrete one-element list, a ranking
line for its id annotates exactly that first match, and a failing model call
returns the fallback ranking. -/
theorem ranker_permutation_sorted_and_fallback_witness :
    RankerAgent.set_score_first [sampleTc2] "test_002" 95 =
      [{ sampleTc2 with rank_score := some (95 : ℚ) }] ∧
    RankerAgent.rank_test_cases [sampleTc2] (Except.error "rate limited") =
      RankerAgent.fallback_ranking [sampleTc2] := by
  obtain ⟨h1, h2, h3, h4, h5, h6, h7, h8, h9⟩ :=
    ranker_permutation_sorted_and_fallback [sampleTc2]
      (Except.error "rate limited") "rate limited" "test_002: 95"
  refine ⟨?_, h3⟩
  have := h9 "test_002" 95 [] sampleTc2 [] rfl
    (by intro u hu; exact absurd hu (List.not_mem_nil u)) rfl
  simpa using this

namespace PlannerAgent

/-- Mutable parse state of one block in
`PlannerAgent._parse_response_to_test_cases`, holding the defaults the code
assigns before scanning the block's lines. -/
structure ParseState where
  name : String
  description : String
  test_type : TestCaseType
  priority : TestPriority
  steps : List String
  expected : String
  validation : List String
deriving DecidableEq, Repr

/-- The defaults assigned at the top of the per-block loop. -/
def initParseState : ParseState :=
  { name := "Test Case"
    description := "Generated test case"
    test_type := TestCaseType.UI_INTERACTION
    priority := TestPriority.MEDIUM
    steps := ["Navigate to game", "Perform test action", "Verify result"]
    expected := "Test passes successfully"
    validation := ["Check result matches expected outcome"] }

/-- The membership test `type_str in ['UI_INTERACTION', ...]` and enum
construction. -/
def parse_type (s : String) : Option TestCaseType :=
  if s = "UI_INTERACTION" then some TestCaseType.UI_INTERACTION
  else if s = "GAME_MECHANICS" then some TestCaseType.GAME_MECHANICS
  else if s = "PERFORMANCE" then some TestCaseType.PERFORMANCE
  else if s = "ERROR_HANDLING" then some TestCaseType.ERROR_HANDLING
  else none

/-- The membership test `priority_str in ['HIGH', 'MEDIUM', 'LOW']` and enum
construction. -/
def parse_priority (s : String) : Option TestPriority :=
  if s = "HIGH" then some TestPriority.HIGH
  else if s = "MEDIUM" then some TestPriority.MEDIUM
  else if s = "LOW" then some TestPriority.LOW
  else none

/-- One iteration of the `for line in lines` field scan: the
`startswith`/`replace`/`strip` ladder of `_parse_response_to_test_cases`. -/
def parse_field_line (st : ParseState) (line : String) : ParseState :=
  if pyStartsWith line "Name:" then
    { st with name := pyStrip (pyReplace line "Name:" "") }
  else if pyStartsWith line "Description:" then
    { st with description := pyStrip (pyReplace line "Description:" "") }
  else if pyStartsWith line "Type:" then
    match parse_type (pyStrip (pyReplace line "Type:" "")) with
    | some t => { st with test_type := t }
    | none => st
  else if pyStartsWith line "Priority:" then
    match parse_priority (pyStrip (pyReplace line "Priority:" "")) with
    | some p => { st with priority := p }
    | none => st
  else if pyStartsWith line "Steps:" then
    { st with steps :=
        (pySplit (pyStrip (pyReplace line "Steps:" "")) ",").map pyStrip }
  else if pyStartsWith line "Expected:" then
    { st with expected := pyStrip (pyReplace line "Expected:" "") }
  else if pyStartsWith line "Validation:" then
    { st with validation := [pyStrip (pyReplace line "Validation:" "")] }
  else st

/-- `lines = [line.strip() for line in block.strip().split('\n') if
line.strip()]`. -/
def block_lines (block : String) : List String :=
  ((pySplit (pyStrip block) "\n").map pyStrip).filter (fun l => l ≠ "")

/-- Parsing one non-empty block at enumeration index `i`: scan the lines over
the defaults and build the `TestCase` with identifier `test_` plus the
zero-padded index. -/
def parse_block (i : Nat) (block : String) : TestCase :=
  let st := (block_lines block).foldl parse_field_line initParseState
  { id := "test_" ++ pyFormat03 (i + 1)
    name := st.name
    description := st.description
    test_type := st.test_type
    priority := st.priority
    steps := st.steps
    expected_outcome := st.expected
    validation_criteria := st.validation }

/-- `PlannerAgent._parse_response_to_test_cases`: split the response on
`---`, keep the first 20 blocks (`test_blocks[:20]`), skip blocks that strip
to nothing, and parse the rest. -/
def parse_response_to_test_cases (response : String) : List TestCase :=
  ((pySplit response "---").take 20).enum.filterMap
    (fun p => if pyStrip p.2 = "" then none else some (parse_block p.1 p.2))

/-- The three SumLink base test cases of
`PlannerAgent._get_fallback_test_cases`. -/
def sumlink_base_tests : List TestCase :=
  [{ id := "test_001"
     name := "Language Selection Test"
     description := "Test the language selection screen that appears first"
     test_type := TestCaseType.UI_INTERACTION
     priority := TestPriority.HIGH
     steps := ["Navigate to SumLink game URL", "Wait for language selection screen",
       "Click on English button", "Wait for game to load", "Verify game board appears"]
     expected_outcome := "Successfully selects English and loads game"
     validation_criteria := ["Language screen appears", "English selection works",
       "Game loads"] },
   { id := "test_002"
     name := "Game Board Load Test"
     description := "Verify the main game board loads properly"
     test_type := TestCaseType.UI_INTERACTION
     priority := TestPriority.HIGH
     steps := ["Navigate to game", "Select English language",
       "Wait for game board to appear", "Check for game elements",
       "Verify no loading errors"]
     expected_outcome := "Game board loads successfully with all elements"
     validation_criteria := ["Game board visible", "No error messages",
       "Interactive elements present"] },
   { id := "test_003"
     name := "Basic Game Interaction Test"
     description := "Test basic clicking and interaction with game"
     test_type := TestCaseType.GAME_MECHANICS
     priority := TestPriority.MEDIUM
     steps := ["Load game and select English", "Click on game elements",
       "Try to interact with numbers/tiles", "Check for visual feedback",
       "Verify game responds to clicks"]
     expected_outcome := "Game responds to user interactions"
     validation_criteria := ["Clicks register", "Visual feedback works",
       "Game is interactive"] }]

/-- `PlannerAgent._get_fallback_test_cases`: cycle through the three base
tests, renaming each copy with a fresh `sumlink_` identifier and an index
suffix, then `result[:count]`. -/
def get_fallback_test_cases (count : Nat) : List TestCase :=
  ((List.range count).map (fun i =>
    let base := sumlink_base_tests.get ⟨i % 3, Nat.mod_lt i (by decide)⟩
    { id := "sumlink_" ++ pyFormat03 (i + 1)
      name := base.name ++ " #" ++ pyStr (i + 1)
      description := base.description
      test_type := base.test_type
      priority := base.priority
      steps := base.steps
      expected_outcome := base.expected_outcome
      validation_criteria := base.validation_criteria })).take count

/-- `PlannerAgent.generate_test_cases`: parse the model response on success;
on any raised fault, return the deterministic fallback list. -/
def generate_test_cases (count : Nat) (llm : Except String String) :
    List TestCase :=
  match llm with
  | Except.ok resp => parse_response_to_test_cases resp
  | Except.error _ => get_fallback_test_cases count

end PlannerAgent

theorem filterMap_sublist_map {α β : Type} (g : α → Option β) (h : α → β)
    (hg : ∀ a, g a = none ∨ g a = some (h a)) :
    ∀ l : List α, (l.filterMap g).Sublist (l.map h) := by
  intro l
  induction l with
  | nil => simp
  | cons a l ih =>
    rcases hg a with ha | ha
    · rw [List.map_cons, List.filterMap_cons_none ha]
      exact ih.cons (h a)
    · rw [List.map_cons, List.filterMap_cons_some ha]
      exact ih.cons₂ (h a)

/-- C9 counterexample: with requested count 1 and a model response holding
two non-empty blocks, the Case Generator returns two test specifications, so
the claim that the returned sequence has length at most `count` is false on
the code (the parser truncates at the hard-coded 20, not at `count`). -/
theorem planner_length_exceeds_count_counterexample :
    (PlannerAgent.generate_test_cases 1
        (Except.ok "Name: A\n---\nName: B")).length = 2 ∧
    ¬ ((PlannerAgent.generate_test_cases 1
        (Except.ok "Name: A\n---\nName: B")).length ≤ 1) := by
  refine ⟨rfl, ?_⟩
  have h : (PlannerAgent.generate_test_cases 1
      (Except.ok "Name: A\n---\nName: B")).length = 2 := rfl
  rw [h]
  decide

theorem pyFormat03_inj_on_small :
    ∀ i : Nat, i < 20 → ∀ j : Nat, j < 20 →
      ("test_" ++ pyFormat03 (i + 1) = "test_" ++ pyFormat03 (j + 1)) → i = j := by
  decide

/-- C9 amended: the Case Generator's parsed sequence has length at most 20
(the hard-coded block cap, independent of the requested count), and its
identifiers are unique within the batch; on internal failure it returns —
without raising — the deterministic fallback sequence of length exactly
`count`, which is non-empty whenever `count ≥ 1`. -/
theorem planner_shape_and_fallback (resp : String) (count : Nat) (e : String)
    (hc : 1 ≤ count) :
    (PlannerAgent.parse_response_to_test_cases resp).length ≤ 20 ∧
    ((PlannerAgent.parse_response_to_test_cases resp).map
      (fun t => t.id)).Nodup ∧
    PlannerAgent.generate_test_cases count (Except.error e) =
      PlannerAgent.get_fallback_test_cases count ∧
    (PlannerAgent.get_fallback_test_cases count).length = count ∧
    PlannerAgent.get_fallback_test_cases count ≠ [] := by
  have hflen : (PlannerAgent.get_fallback_test_cases count).length = count := by
    simp [PlannerAgent.get_fallback_test_cases]
  refine ⟨?_, ?_, rfl, hflen, ?_⟩
  · unfold PlannerAgent.parse_response_to_test_cases
    calc (((pySplit resp "---").take 20).enum.filterMap _).length
        ≤ ((pySplit resp "---").take 20).enum.length :=
          List.length_filterMap_le _ _
      _ = ((pySplit resp "---").take 20).length := List.enum_length
      _ ≤ 20 := by rw [List.length_take]; exact min_le_left _ _
  · unfold PlannerAgent.parse_response_to_test_cases
    rw [List.map_filterMap]
    have hsub : (((pySplit resp "---").take 20).enum.filterMap
        (fun p => Option.map (fun t => t.id)
          (if pyStrip p.2 = "" then none
           else some (PlannerAgent.parse_block p.1 p.2)))).Sublist
        (((pySplit resp "---").take 20).enum.map
          (fun p => "test_" ++ pyFormat03 (p.1 + 1))) := by
      apply filterMap_sublist_map
      intro p
      by_cases hp : pyStrip p.2 = ""
      · left; simp [hp]
      · right; simp [hp, PlannerAgent.parse_block]
    refine List.Nodup.sublist hsub ?_
    have hmap : (((pySplit resp "---").take 20).enum.map
        (fun p => "test_" ++ pyFormat03 (p.1 + 1))) =
        (((pySplit resp "---").take 20).enum.map Prod.fst).map
          (fun i => "test_" ++ pyFormat03 (i + 1)) := by
      rw [List.map_map]
      rfl
    rw [hmap, List.enum_map_fst]
    apply List.Nodup.map_on
    · intro i hi j hj hij
      have hi20 : i < 20 := by
        have := List.mem_range.mp hi
        have hle : ((pySplit resp "---").take 20).length ≤ 20 := by
          rw [List.length_take]; exact min_le_left _ _
        omega
      have hj20 : j < 20 := by
        have := List.mem_range.mp hj
        have hle : ((pySplit resp "---").take 20).length ≤ 20 := by
          rw [List.length_take]; exact min_le_left _ _
        omega
      exact pyFormat03_inj_on_small i hi20 j hj20 hij
    · exact List.nodup_range _
  · intro hnil
    rw [hnil] at hflen
    simp at hflen
    omega

/-- Witness for the amended C9 at requested count 1 and a concrete failing
upstream call. -/
theorem planner_shape_and_fallback_witness :
    (PlannerAgent.get_fallback_test_cases 1).length = 1 ∧
    PlannerAgent.generate_test_cases 1 (Except.error "rate limited") =
      PlannerAgent.get_fallback_test_cases 1 ∧
    PlannerAgent.get_fallback_test_cases 1 ≠ [] := by
  obtain ⟨_, _, h3, h4, h5⟩ :=
    planner_shape_and_fallback "Name: A" 1 "rate limited" (by decide)
  exact ⟨h4, h3, h5⟩

namespace OrchestratorAgent

/-- Environment of one `OrchestratorAgent.execute_test_suite` run: the
outcomes of the model calls made by the Planner and the Ranker, the per-test
browser outcome consumed by the Executor, and the wall-clock readings (one
timestamp per status write, one for the report, one reused inside the
executor's substitute records). -/
structure OrchEnv where
  planner_llm : Except String String
  ranker_llm : Except String String
  run : TestCase → Except String ExecResult
  now_iso : String
  report_time : String
  status_time : Nat → String

/-- `OrchestratorAgent._collect_artifacts`: extend an accumulator with each
result's artifact list, in result order. -/
def collect_artifacts (execution_results : List ExecResult) : List String :=
  execution_results.foldl (fun acc r => acc ++ r.artifacts) []

/-- The observation written by the `k`-th `_update_task_status` call of a
run. -/
def status_obs (env : OrchEnv) (k : Nat) (status message : String) : StatusObs :=
  { status := status, message := message, updated_at := env.status_time k }

/-- `sum(1 for result in execution_results if result.get("verdict") ==
"PASS")`. -/
def successful_tests (results : List ExecResult) : Nat :=
  results.countP (fun r => r.verdict == "PASS")

/-- `successful_tests / len(execution_results) if execution_results else 0`,
as an exact rational. -/
def success_rate_of (results : List ExecResult) : ℚ :=
  if results.isEmpty then 0
  else (successful_tests results : ℚ) / (results.length : ℚ)

/-- `OrchestratorAgent.execute_test_suite` on the successful path: generate
candidates (the Planner absorbs its faults), rank them (the Ranker absorbs
its faults), select the first `execute_count`, execute them, and assemble the
report; returns the report together with the ordered trace of the five
status observations the run publishes. -/
def execute_test_suite (env : OrchEnv) (task_id target_url : String)
    (candidate_count execute_count : Nat) : TestReport × List StatusObs :=
  let candidate_tests :=
    PlannerAgent.generate_test_cases candidate_count env.planner_llm
  let ranked_tests := RankerAgent.rank_test_cases candidate_tests env.ranker_llm
  let selected_tests := ranked_tests.take execute_count
  let execution_results :=
    ExecutorAgent.execute_test_cases env.run env.now_iso selected_tests
  ({ task_id := task_id
     target_url := target_url
     timestamp := env.report_time
     total_candidates := candidate_tests.length
     executed_tests := execution_results.length
     success_rate := success_rate_of execution_results
     execution_results := execution_results
     artifacts := collect_artifacts execution_results },
   [status_obs env 0 "planning" "Generating test case candidates",
    status_obs env 1 "ranking" "Ranking test cases by priority",
    status_obs env 2 "executing"
      ("Executing top " ++ pyStr execute_count ++ " test cases"),
    status_obs env 3 "reporting" "Generating comprehensive test report",
    status_obs env 4 "completed" "Test execution completed successfully"])

/-- `OrchestratorAgent._update_task_status`: `self.active_tasks[task_id] =
observation` — a plain overwrite of the task's slot in the map. -/
def update_task_status (m : String → Option StatusObs) (task_id : String)
    (obs : StatusObs) : String → Option StatusObs :=
  fun k => if k = task_id then some obs else m k

/-- Apply a run's status writes to the task map, in publication order. -/
def apply_status_trace (m : String → Option StatusObs) (task_id : String)
    (trace : List StatusObs) : String → Option StatusObs :=
  trace.foldl (fun acc obs => update_task_status acc task_id obs) m

/-- `OrchestratorAgent.get_task_status`: a pure read of the map. -/
def get_task_status (m : String → Option StatusObs) (task_id : String) :
    Option StatusObs :=
  m task_id

end OrchestratorAgent

/-- C5: for every assembled report, `executed_tests` equals the length of
`execution_results`, and `success_rate` equals the number of results with
verdict PASS divided by `executed_tests`, defined as 0 when `executed_tests`
is 0; in particular a requested execution count of 0 yields
`executed_tests = 0`, `success_rate = 0`, an empty result list, and no
division fault (the rate is totally defined). -/
theorem report_counts_and_success_rate (env : OrchestratorAgent.OrchEnv)
    (task_id target_url : String) (candidate_count execute_count : Nat) :
    (OrchestratorAgent.execute_test_suite env task_id target_url
        candidate_count execute_count).1.executed_tests =
      (OrchestratorAgent.execute_test_suite env task_id target_url
        candidate_count execute_count).1.execution_results.length ∧
    (OrchestratorAgent.execute_test_suite env task_id target_url
        candidate_count execute_count).1.success_rate =
      (if (OrchestratorAgent.execute_test_suite env task_id target_url
            candidate_count execute_count).1.execution_results.length = 0 then 0
       else (OrchestratorAgent.successful_tests
          (OrchestratorAgent.execute_test_suite env task_id target_url
            candidate_count execute_count).1.execution_results : ℚ) /
         ((OrchestratorAgent.execute_test_suite env task_id target_url
            candidate_count execute_count).1.execution_results.length : ℚ)) ∧
    (OrchestratorAgent.execute_test_suite env task_id target_url
        candidate_count 0).1.executed_tests = 0 ∧
    (OrchestratorAgent.execute_test_suite env task_id target_url
        candidate_count 0).1.success_rate = 0 ∧
    (OrchestratorAgent.execute_test_suite env task_id target_url
        candidate_count 0).1.execution_results = [] := by
  refine ⟨rfl, ?_, rfl, rfl, rfl⟩
  have h : ∀ rs : List ExecResult,
      OrchestratorAgent.success_rate_of rs =
        (if rs.length = 0 then 0
         else (OrchestratorAgent.successful_tests rs : ℚ) / (rs.length : ℚ)) := by
    intro rs
    unfold OrchestratorAgent.success_rate_of
    cases rs <;> simp
  exact h _

/-- C6: for every successful suite run, the published phase sequence is
exactly planning, ranking, executing, reporting, completed, in that order
with no skips or repeats; and applying the run's writes to any initial task
map leaves, at the run's task id, exactly the last observation — each write
overwrote the prior one, and the map retains no history. -/
theorem phase_sequence_and_last_write_wins (env : OrchestratorAgent.OrchEnv)
    (task_id target_url : String) (candidate_count execute_count : Nat) :
    ((OrchestratorAgent.execute_test_suite env task_id target_url
        candidate_count execute_count).2.map (fun o => o.status)) =
      ["planning", "ranking", "executing", "reporting", "completed"] ∧
    ∀ m0 : String → Option StatusObs,
      OrchestratorAgent.apply_status_trace m0 task_id
        (OrchestratorAgent.execute_test_suite env task_id target_url
          candidate_count execute_count).2 task_id =
        some (OrchestratorAgent.status_obs env 4 "completed"
          "Test execution completed successfully") := by
  refine ⟨rfl, ?_⟩
  intro m0
  simp [OrchestratorAgent.execute_test_suite,
    OrchestratorAgent.apply_status_trace, OrchestratorAgent.update_task_status]

/-- C7: for every ranked candidate list and requested execution count, the
Orchestrator executes exactly the prefix of the ranked sequence of length
`min (execution count) (candidate count)` — the selected tests followed by
the dropped ones reassemble the ranked list — so when the execution count
exceeds the candidate count exactly the candidate count of specifications is
executed. -/
theorem selection_is_min_length_ranked_prefix (env : OrchestratorAgent.OrchEnv)
    (task_id target_url : String) (candidate_count execute_count : Nat) :
    (OrchestratorAgent.execute_test_suite env task_id target_url
        candidate_count execute_count).1.execution_results =
      ExecutorAgent.execute_test_cases env.run env.now_iso
        ((RankerAgent.rank_test_cases
          (PlannerAgent.generate_test_cases candidate_count env.planner_llm)
          env.ranker_llm).take execute_count) ∧
    ((RankerAgent.rank_test_cases
        (PlannerAgent.generate_test_cases candidate_count env.planner_llm)
        env.ranker_llm).take execute_count).length =
      min execute_count
        (RankerAgent.rank_test_cases
          (PlannerAgent.generate_test_cases candidate_count env.planner_llm)
          env.ranker_llm).length ∧
    (RankerAgent.rank_test_cases
        (PlannerAgent.generate_test_cases candidate_count env.planner_llm)
        env.ranker_llm).take execute_count ++
      (RankerAgent.rank_test_cases
        (PlannerAgent.generate_test_cases candidate_count env.planner_llm)
        env.ranker_llm).drop execute_count =
      RankerAgent.rank_test_cases
        (PlannerAgent.generate_test_cases candidate_count env.planner_llm)
        env.ranker_llm ∧
    (OrchestratorAgent.execute_test_suite env task_id target_url
        candidate_count execute_count).1.executed_tests =
      min execute_count
        (RankerAgent.rank_test_cases
          (PlannerAgent.generate_test_cases candidate_count env.planner_llm)
          env.ranker_llm).length := by
  refine ⟨rfl, List.length_take _ _, List.take_append_drop _ _, ?_⟩
  show (ExecutorAgent.execute_test_cases env.run env.now_iso _).length = _
  rw [ExecutorAgent.execute_test_cases_eq_map, List.length_map, List.length_take]
